import Mathlib

/-!
# Verification of the Tohf-e-Hayat backend (src/server.js)

A shallow embedding of the Express backend in `src/server.js`:
a health-check route `GET /api` and a donor-registration route
`POST /api/register` that validates the body, serializes the `organs`
array with `JSON.stringify`, and runs one parameterized `INSERT` into
the `donors` table through a mysql2 connection pool.

Modelling choices, each tied to a line of the source:

* Request-body fields are `Option String` / `Bool` / `Option (List String)`
  following the spec's input contract (strings, booleans, sequence of
  strings); an absent field is `none`.  For a string-or-absent field the
  JavaScript truthiness test `!x` (server.js line 52) is exactly
  "absent or empty string", captured by `falsy`.
* JavaScript values handed to the driver are `JsParam`
  (`undefined` / `null` / string / boolean).  mysql2's `connection.query`
  escapes parameters client-side with sqlstring, which renders both
  `undefined` and `null` as SQL `NULL`; `escapeParam` embeds that step.
* `JSON.stringify` on an array of strings is `jsonStringifyStrArr`
  (server.js line 62); `JSON.stringify(undefined)` is `undefined`,
  captured by `organsJson` returning `JsParam.undef` when `organs`
  is absent.
* The database is the list of rows of the `donors` table in insertion
  order; the auto-increment id of a fresh row is `rows.length + 1`
  (rows are only ever inserted, never deleted).
* Failures of the pool / the query that do not depend on the data
  (connectivity loss, etc.) are injected through the `Fault` oracle;
  the duplicate-email failure (`ER_DUP_ENTRY`) is determined by the
  database state itself.
* Pool interaction is recorded as a trace of `PoolEvent`s: a successful
  `pool.getConnection()` (line 87) emits `.acquire`, a
  `connection.release()` (line 112) emits `.release`.
-/

/-- JavaScript values that appear as query parameters in server.js. -/
inductive JsParam where
  | undef : JsParam
  | null : JsParam
  | str : String → JsParam
  | bool : Bool → JsParam
deriving DecidableEq, Repr

/-- SQL values after mysql2/sqlstring client-side escaping of a parameter:
both JavaScript `undefined` and `null` are rendered as SQL `NULL`. -/
inductive SqlValue where
  | null : SqlValue
  | str : String → SqlValue
  | bool : Bool → SqlValue
deriving DecidableEq, Repr

/-- mysql2 `connection.query` escaping of one parameter (sqlstring:
`undefined` and `null` both become `NULL`; strings and booleans are
passed through). -/
def escapeParam : JsParam → SqlValue
  | JsParam.undef => SqlValue.null
  | JsParam.null => SqlValue.null
  | JsParam.str s => SqlValue.str s
  | JsParam.bool b => SqlValue.bool b

/-- The parsed JSON request body of `POST /api/register` (server.js
lines 40-49).  Per the spec's input contract the name/contact fields are
strings (absent encoded as `none`), the donor-type flags are booleans,
and `organs` is a sequence of strings or absent. -/
structure RequestBody where
  fullName : Option String
  email : Option String
  phone : Option String
  bloodGroup : Option String
  city : Option String
  isBloodDonor : Bool
  isOrganDonor : Bool
  organs : Option (List String)
deriving DecidableEq, Repr

/-- JavaScript truthiness test `!x` for a string-or-absent field:
true exactly when the field is absent or the empty string. -/
def falsy : Option String → Bool
  | none => true
  | some s => s = ""

/-- A JavaScript string-or-absent value as a query parameter
(absent is `undefined`). -/
def jsOfOpt : Option String → JsParam
  | none => JsParam.undef
  | some s => JsParam.str s

/-! ## JSON.stringify on an array of strings (server.js line 62) -/

/-- Lowercase hexadecimal digit, as produced by `JSON.stringify`
in `\u00XX` escapes. -/
def hexDigit (n : Nat) : Char :=
  if n < 10 then Char.ofNat (48 + n) else Char.ofNat (87 + n)

/-- `JSON.stringify` escaping of one character inside a string literal:
quote and backslash get a backslash escape, the five control characters
with short forms get those, any other control character (code < 32)
becomes `\u00XX`, and every other character is emitted literally. -/
def escapeChar (c : Char) : List Char :=
  if c = '"' then ['\\', '"']
  else if c = '\\' then ['\\', '\\']
  else if c = '\x08' then ['\\', 'b']
  else if c = '\t' then ['\\', 't']
  else if c = '\n' then ['\\', 'n']
  else if c = '\x0c' then ['\\', 'f']
  else if c = '\r' then ['\\', 'r']
  else if c.toNat < 32 then
    ['\\', 'u', '0', '0', hexDigit (c.toNat / 16), hexDigit (c.toNat % 16)]
  else [c]

/-- Escape every character of a string body. -/
def encChars : List Char → List Char
  | [] => []
  | c :: cs => escapeChar c ++ encChars cs

/-- `JSON.stringify` of one string: a double-quoted escaped literal. -/
def quoteString (s : String) : List Char :=
  '"' :: (encChars s.data ++ ['"'])

/-- The comma-separated item list of a stringified array. -/
def encItems : List String → List Char
  | [] => []
  | [s] => quoteString s
  | s :: s2 :: rest => quoteString s ++ (',' :: encItems (s2 :: rest))

/-- `JSON.stringify` of an array of strings: `[` items `]` with no
whitespace, exactly as V8 prints it. -/
def jsonStringifyStrArr (l : List String) : String :=
  ⟨'[' :: (encItems l ++ [']'])⟩

/-- `const organsJson = JSON.stringify(organs)` (server.js line 62):
`JSON.stringify` of an absent value is `undefined`, not a string. -/
def organsJson (organs : Option (List String)) : JsParam :=
  match organs with
  | none => JsParam.undef
  | some l => JsParam.str (jsonStringifyStrArr l)

/-- `const finalBloodGroup = bloodGroup === '' ? null : bloodGroup`
(server.js line 64).  Note an absent `bloodGroup` stays `undefined`. -/
def finalBloodGroup (bloodGroup : Option String) : JsParam :=
  if bloodGroup = some "" then JsParam.null else jsOfOpt bloodGroup

/-! ## A decoder for the stored `organs_to_donate` text -/

/-- Value of a hexadecimal digit character, if it is one. -/
def hexVal (c : Char) : Option Nat :=
  if 48 ≤ c.toNat ∧ c.toNat ≤ 57 then some (c.toNat - 48)
  else if 97 ≤ c.toNat ∧ c.toNat ≤ 102 then some (c.toNat - 87)
  else if 65 ≤ c.toNat ∧ c.toNat ≤ 70 then some (c.toNat - 55)
  else none

/-- The single-character JSON string escapes. -/
def unescapeSimple (c : Char) : Option Char :=
  if c = '"' then some '"'
  else if c = '\\' then some '\\'
  else if c = '/' then some '/'
  else if c = 'b' then some '\x08'
  else if c = 't' then some '\t'
  else if c = 'n' then some '\n'
  else if c = 'f' then some '\x0c'
  else if c = 'r' then some '\r'
  else none

/-- Decode what follows a backslash in a JSON string literal: the escape
character `e` and the input after it; returns the decoded character and
the remaining input. -/
def decodeEscape : Char → List Char → Option (Char × List Char)
  | e, rest =>
    match unescapeSimple e with
    | some u => some (u, rest)
    | none =>
      if e = 'u' then
        match rest with
        | h1 :: h2 :: h3 :: h4 :: rest2 =>
          match hexVal h1, hexVal h2, hexVal h3, hexVal h4 with
          | some a, some b, some c2, some d =>
            some (Char.ofNat (((a * 16 + b) * 16 + c2) * 16 + d), rest2)
          | _, _, _, _ => none
        | _ => none
      else none

/-- Parse the body of a JSON string literal (the opening quote already
consumed): returns the decoded characters and the input remaining after
the closing quote.  `fuel` bounds the number of decoded characters; each
step consumes at least one input character. -/
def parseStrGo : Nat → List Char → Option (List Char × List Char)
  | 0, _ => none
  | _ + 1, [] => none
  | fuel + 1, c :: rest =>
    if c = '"' then some ([], rest)
    else if c = '\\' then
      match rest with
      | [] => none
      | e :: rest2 =>
        match decodeEscape e rest2 with
        | some (u, rest3) => (parseStrGo fuel rest3).map (fun p => (u :: p.1, p.2))
        | none => none
    else (parseStrGo fuel rest).map (fun p => (c :: p.1, p.2))

/-- Parse a JSON string-literal body with enough fuel for the whole
input. -/
def parseStringBody (cs : List Char) : Option (List Char × List Char) :=
  parseStrGo (cs.length + 1) cs

/-- Parse the items of a JSON array of strings (the opening bracket
already consumed), up to and including the closing bracket; `fuel`
bounds the number of items. -/
def parseItems : Nat → List Char → Option (List String × List Char)
  | 0, _ => none
  | _ + 1, [] => none
  | fuel + 1, c :: cs =>
    if c = ']' then some ([], cs)
    else if c = '"' then
      match parseStringBody cs with
      | none => none
      | some (content, rest) =>
        match rest with
        | ',' :: rest2 =>
          (parseItems fuel rest2).map (fun p => ((⟨content⟩ : String) :: p.1, p.2))
        | ']' :: rest2 => some ([(⟨content⟩ : String)], rest2)
        | _ => none
    else none

/-- Decode a stored `organs_to_donate` text back into the sequence of
organ names: a JSON array of strings, consumed entirely. -/
def decodeOrgans (s : String) : Option (List String) :=
  match s.data with
  | '[' :: rest =>
    match parseItems (rest.length + 1) rest with
    | some (l, []) => some l
    | _ => none
  | _ => none

/-! ## The donors table and the insert -/

/-- One row of the `donors` table (columns of the INSERT at
server.js lines 68-71). -/
structure DonorRow where
  id : Nat
  full_name : SqlValue
  email : SqlValue
  phone : SqlValue
  blood_group : SqlValue
  city : SqlValue
  is_blood_donor : SqlValue
  is_organ_donor : SqlValue
  organs_to_donate : SqlValue
deriving DecidableEq, Repr

/-- The eight escaped parameter values of the INSERT
(server.js lines 73-82), in column order. -/
structure InsertValues where
  full_name : SqlValue
  email : SqlValue
  phone : SqlValue
  blood_group : SqlValue
  city : SqlValue
  is_blood_donor : SqlValue
  is_organ_donor : SqlValue
  organs_to_donate : SqlValue
deriving DecidableEq, Repr

/-- The `values` array of the handler (server.js lines 73-82), after
driver escaping. -/
def buildValues (b : RequestBody) : InsertValues :=
  { full_name := escapeParam (jsOfOpt b.fullName)
    email := escapeParam (jsOfOpt b.email)
    phone := escapeParam (jsOfOpt b.phone)
    blood_group := escapeParam (finalBloodGroup b.bloodGroup)
    city := escapeParam (jsOfOpt b.city)
    is_blood_donor := SqlValue.bool b.isBloodDonor
    is_organ_donor := SqlValue.bool b.isOrganDonor
    organs_to_donate := escapeParam (organsJson b.organs) }

/-- Outcome of executing the INSERT against the database engine. -/
inductive InsertResult where
  | inserted : Nat → InsertResult
  | dupEntry : InsertResult
  | otherErr : InsertResult
deriving DecidableEq, Repr

/-- Modelled from the spec: the `donors` table schema is not under
src/ (spec §6 delegates it to the database engine).  Per spec §3 only
`blood_group` is "string or absent"; `organs_to_donate` is a
JSON-encoded text value, so the engine rejects a `NULL` there
(a non-duplicate error), and the uniqueness constraint on `email`
makes a second insert of a stored email fail with `ER_DUP_ENTRY`.
The auto-increment id of a fresh row is `rows.length + 1`. -/
def dbInsert (rows : List DonorRow) (v : InsertValues) : InsertResult × List DonorRow :=
  match v.organs_to_donate with
  | SqlValue.str _ =>
    if rows.any (fun r => r.email = v.email) then (InsertResult.dupEntry, rows)
    else
      (InsertResult.inserted (rows.length + 1),
        rows ++ [{ id := rows.length + 1
                   full_name := v.full_name
                   email := v.email
                   phone := v.phone
                   blood_group := v.blood_group
                   city := v.city
                   is_blood_donor := v.is_blood_donor
                   is_organ_donor := v.is_organ_donor
                   organs_to_donate := v.organs_to_donate }])
  | _ => (InsertResult.otherErr, rows)

/-! ## The HTTP handlers -/

/-- Pool interactions the handler performs: a successful
`pool.getConnection()` and a `connection.release()`. -/
inductive PoolEvent where
  | acquire : PoolEvent
  | release : PoolEvent
deriving DecidableEq, Repr

/-- Environment faults injected into one request: the pool may fail to
hand out a connection, or the query may fail for a reason unrelated to
the data (connectivity loss etc.). -/
inductive Fault where
  | healthy : Fault
  | connFail : Fault
  | queryFail : Fault
deriving DecidableEq, Repr

/-- A JSON response body sent by the handlers. -/
inductive RespBody where
  | msg : String → RespBody
  | err : String → RespBody
  | success : String → Nat → RespBody
deriving DecidableEq, Repr

/-- Everything observable about one handled request: the HTTP status,
the response body, the donors table afterwards, and the pool trace. -/
structure HandlerOutcome where
  status : Nat
  body : RespBody
  db : List DonorRow
  events : List PoolEvent
deriving DecidableEq, Repr

/-- The generic 500 body (server.js line 108): a fixed string, never
containing the underlying error. -/
def genericErrMsg : String := "An error occurred during registration. Please try again."

/-- `GET /api` (server.js lines 33-35): a constant 200 response that
never touches the pool or the database, whatever fault the environment
is in. -/
def apiGetHandler (rows : List DonorRow) (_fault : Fault) : HandlerOutcome :=
  { status := 200
    body := RespBody.msg "Tohf-e-Hayat Backend (MySQL) is running!"
    db := rows
    events := [] }

/-- `POST /api/register` (server.js lines 38-115). -/
def register (b : RequestBody) (rows : List DonorRow) (fault : Fault) : HandlerOutcome :=
  if falsy b.fullName || falsy b.email || falsy b.phone || falsy b.city then
    { status := 400, body := RespBody.err "Please fill out all required fields."
      db := rows, events := [] }
  else if b.isBloodDonor && (falsy b.bloodGroup || b.bloodGroup == some "") then
    { status := 400, body := RespBody.err "Blood group is required for blood donors."
      db := rows, events := [] }
  else
    match fault with
    | Fault.connFail =>
      { status := 500, body := RespBody.err genericErrMsg, db := rows, events := [] }
    | Fault.queryFail =>
      { status := 500, body := RespBody.err genericErrMsg, db := rows
        events := [PoolEvent.acquire, PoolEvent.release] }
    | Fault.healthy =>
      match dbInsert rows (buildValues b) with
      | (InsertResult.inserted id, rows2) =>
        { status := 201, body := RespBody.success "Registration successful!" id
          db := rows2, events := [PoolEvent.acquire, PoolEvent.release] }
      | (InsertResult.dupEntry, rows2) =>
        { status := 409, body := RespBody.err "This email is already registered."
          db := rows2, events := [PoolEvent.acquire, PoolEvent.release] }
      | (InsertResult.otherErr, rows2) =>
        { status := 500, body := RespBody.err genericErrMsg
          db := rows2, events := [PoolEvent.acquire, PoolEvent.release] }

/-- The two validation rules of the handler, in order
(server.js lines 52-59): the request is rejected before any pool
interaction when this is true. -/
def validationFails (b : RequestBody) : Bool :=
  (falsy b.fullName || falsy b.email || falsy b.phone || falsy b.city)
    || (b.isBloodDonor && (falsy b.bloodGroup || b.bloodGroup == some ""))

/-! ## Helper lemmas -/

/-- Whatever happens, the donors table afterwards is either unchanged or
the old table with exactly one new row, built from the escaped values
and carrying the next auto-increment id. -/
theorem register_db_cases (b : RequestBody) (rows : List DonorRow) (fault : Fault) :
    (register b rows fault).db = rows ∨
    (register b rows fault).db = rows ++
      [{ id := rows.length + 1
         full_name := (buildValues b).full_name
         email := (buildValues b).email
         phone := (buildValues b).phone
         blood_group := (buildValues b).blood_group
         city := (buildValues b).city
         is_blood_donor := (buildValues b).is_blood_donor
         is_organ_donor := (buildValues b).is_organ_donor
         organs_to_donate := (buildValues b).organs_to_donate }] := by
  unfold register
  split
  · left; rfl
  split
  · left; rfl
  split
  · left; rfl
  · left; rfl
  · rcases hv : (buildValues b).organs_to_donate with _ | s | bb
    · simp [dbInsert, hv]
    · by_cases hd : (rows.any fun r => r.email = (buildValues b).email) = true
      · simp [dbInsert, hv, hd]
      · simp [dbInsert, hv, hd]
    · simp [dbInsert, hv]

/-! ## Claim theorems -/

/-- C1: a request in which any of fullName, email, phone, city is absent
or empty is answered 400 with the missing-required-fields message, and
the donors table is unchanged (nothing persisted). -/
theorem register_missing_required_rejects (b : RequestBody) (rows : List DonorRow) (fault : Fault)
    (h : falsy b.fullName = true ∨ falsy b.email = true ∨
      falsy b.phone = true ∨ falsy b.city = true) :
    (register b rows fault).status = 400 ∧
    (register b rows fault).body = RespBody.err "Please fill out all required fields." ∧
    (register b rows fault).db = rows := by
  rcases h with h | h | h | h <;> simp [register, h]

/-- Witness for C1: scenario C of the spec (empty fullName). -/
theorem register_missing_required_rejects_witness :
    (falsy (RequestBody.mk (some "") (some "x@example.com") (some "1") none
        (some "Karachi") false false (some [])).fullName = true) ∧
    (register (RequestBody.mk (some "") (some "x@example.com") (some "1") none
        (some "Karachi") false false (some [])) [] Fault.healthy).status = 400 ∧
    (register (RequestBody.mk (some "") (some "x@example.com") (some "1") none
        (some "Karachi") false false (some [])) [] Fault.healthy).body =
      RespBody.err "Please fill out all required fields." ∧
    (register (RequestBody.mk (some "") (some "x@example.com") (some "1") none
        (some "Karachi") false false (some [])) [] Fault.healthy).db = [] :=
  ⟨by decide,
    register_missing_required_rejects _ [] Fault.healthy (Or.inl (by decide))⟩

/-- C4: with all required fields present, a blood donor without a blood
group is answered 400 with the blood-group-specific message and nothing
is persisted; and the required-fields check runs first, so when required
fields are also missing the outcome is the missing-required-fields
response instead. -/
theorem register_blood_group_rejects (b : RequestBody) (rows : List DonorRow) (fault : Fault)
    (h2 : b.isBloodDonor = true)
    (h3 : (falsy b.bloodGroup || b.bloodGroup == some "") = true) :
    register b rows fault =
      if falsy b.fullName || falsy b.email || falsy b.phone || falsy b.city then
        { status := 400, body := RespBody.err "Please fill out all required fields."
          db := rows, events := [] }
      else
        { status := 400, body := RespBody.err "Blood group is required for blood donors."
          db := rows, events := [] } := by
  by_cases h1 : (falsy b.fullName || falsy b.email || falsy b.phone || falsy b.city) = true
  · simp [register, h1]
  · simp only [Bool.not_eq_true] at h1
    simp [register, h1, h2, h3]

/-- Witness for C4: scenario D of the spec (blood donor, empty blood
group, all required fields present). -/
theorem register_blood_group_rejects_witness :
    ((RequestBody.mk (some "Ana Khan") (some "ana@example.com") (some "555-0100") (some "")
        (some "Lahore") true false (some [])).isBloodDonor = true) ∧
    ((falsy (RequestBody.mk (some "Ana Khan") (some "ana@example.com") (some "555-0100") (some "")
        (some "Lahore") true false (some [])).bloodGroup ||
      (RequestBody.mk (some "Ana Khan") (some "ana@example.com") (some "555-0100") (some "")
        (some "Lahore") true false (some [])).bloodGroup == some "") = true) ∧
    register (RequestBody.mk (some "Ana Khan") (some "ana@example.com") (some "555-0100") (some "")
        (some "Lahore") true false (some [])) [] Fault.healthy =
      { status := 400, body := RespBody.err "Blood group is required for blood donors."
        db := [], events := [] } :=
  ⟨by decide, by decide, by
    rw [register_blood_group_rejects _ [] Fault.healthy (by decide) (by decide)]
    decide⟩

/-- C5: on every path through the registration handler, the pool trace is
either empty (no connection was acquired) or exactly one acquisition
followed by exactly one release. -/
theorem register_releases_acquired_connection
    (b : RequestBody) (rows : List DonorRow) (fault : Fault) :
    (register b rows fault).events = [] ∨
    (register b rows fault).events = [PoolEvent.acquire, PoolEvent.release] := by
  unfold register
  split
  · left; rfl
  split
  · left; rfl
  rcases fault with _ | _ | _
  · rcases dbInsert rows (buildValues b) with ⟨_ | _ | _, rows2⟩
    · right; rfl
    · right; rfl
    · right; rfl
  · left; rfl
  · right; rfl

/-- C8: `GET /api` always answers 200 with the fixed static message,
leaves the donors table unchanged and performs no pool interaction,
whatever fault state the database environment is in. -/
theorem apiGet_constant (rows : List DonorRow) (fault : Fault) :
    apiGetHandler rows fault =
      { status := 200
        body := RespBody.msg "Tohf-e-Hayat Backend (MySQL) is running!"
        db := rows
        events := [] } := rfl

/-- C9: a request that fails either validation rule is rejected before
any pool interaction: the pool trace is empty and the donors table is
unchanged. -/
theorem register_validation_failure_no_pool
    (b : RequestBody) (rows : List DonorRow) (fault : Fault)
    (h : validationFails b = true) :
    (register b rows fault).events = [] ∧ (register b rows fault).db = rows := by
  by_cases h1 : (falsy b.fullName || falsy b.email || falsy b.phone || falsy b.city) = true
  · simp [register, h1]
  · have h2 : (b.isBloodDonor && (falsy b.bloodGroup || b.bloodGroup == some "")) = true := by
      unfold validationFails at h
      rw [Bool.or_eq_true] at h
      exact h.resolve_left h1
    simp only [Bool.not_eq_true] at h1
    simp [register, h1, h2]

/-- Witness for C9: a blood donor with an absent blood group. -/
theorem register_validation_failure_no_pool_witness :
    (validationFails (RequestBody.mk (some "Ana Khan") (some "ana@example.com") (some "555-0100")
        none (some "Lahore") true false (some [])) = true) ∧
    (register (RequestBody.mk (some "Ana Khan") (some "ana@example.com") (some "555-0100")
        none (some "Lahore") true false (some [])) [] Fault.healthy).events = [] ∧
    (register (RequestBody.mk (some "Ana Khan") (some "ana@example.com") (some "555-0100")
        none (some "Lahore") true false (some [])) [] Fault.healthy).db = [] :=
  ⟨by decide, register_validation_failure_no_pool _ [] Fault.healthy (by decide)⟩

/-! ## Sample payloads (spec §8, concrete scenarios) -/

/-- Scenario A of the spec: a complete, valid blood-donor payload. -/
def sampleBody : RequestBody :=
  { fullName := some "Ana Khan"
    email := some "ana@example.com"
    phone := some "555-0100"
    bloodGroup := some "O+"
    city := some "Lahore"
    isBloodDonor := true
    isOrganDonor := false
    organs := some [] }

/-- The row scenario A persists into an empty donors table. -/
def sampleRow : DonorRow :=
  { id := 1
    full_name := SqlValue.str "Ana Khan"
    email := SqlValue.str "ana@example.com"
    phone := SqlValue.str "555-0100"
    blood_group := SqlValue.str "O+"
    city := SqlValue.str "Lahore"
    is_blood_donor := SqlValue.bool true
    is_organ_donor := SqlValue.bool false
    organs_to_donate := SqlValue.str "[]" }

/-- An organ-only payload: not a blood donor, blood group submitted as
the empty string. -/
def organOnlyBody : RequestBody :=
  { fullName := some "Bilal Raza"
    email := some "bilal@example.com"
    phone := some "555-0200"
    bloodGroup := some ""
    city := some "Multan"
    isBloodDonor := false
    isOrganDonor := true
    organs := some ["kidney", "liver"] }

/-- A valid payload that omits the `organs` field entirely. -/
def noOrgansBody : RequestBody :=
  { fullName := some "Sara Ali"
    email := some "sara@example.com"
    phone := some "555-0300"
    bloodGroup := some "A+"
    city := some "Karachi"
    isBloodDonor := true
    isOrganDonor := false
    organs := none }

/-- C2: for a request that passes validation, an insert failure is
classified exactly: a connection/query failure unrelated to the data is
a 500 whose body is the fixed generic message (the cause is never in the
body), and a duplicate email (`ER_DUP_ENTRY`) is a 409 with the
already-registered message; either way nothing is persisted. -/
theorem register_insert_failure_classified (b : RequestBody) (rows : List DonorRow) (fault : Fault)
    (h1 : (falsy b.fullName || falsy b.email || falsy b.phone || falsy b.city) = false)
    (h2 : (b.isBloodDonor && (falsy b.bloodGroup || b.bloodGroup == some "")) = false) :
    ((fault = Fault.connFail ∨ fault = Fault.queryFail) →
      (register b rows fault).status = 500 ∧
      (register b rows fault).body = RespBody.err genericErrMsg ∧
      (register b rows fault).db = rows) ∧
    (∀ l : List String, b.organs = some l →
      (rows.any fun r => r.email = (buildValues b).email) = true →
      (register b rows Fault.healthy).status = 409 ∧
      (register b rows Fault.healthy).body = RespBody.err "This email is already registered." ∧
      (register b rows Fault.healthy).db = rows) := by
  constructor
  · rintro (rfl | rfl) <;> simp [register, h1, h2]
  · intro l hl hd
    have hv : (buildValues b).organs_to_donate = SqlValue.str (jsonStringifyStrArr l) := by
      simp [buildValues, organsJson, hl, escapeParam]
    simp [register, h1, h2, dbInsert, hv, hd]

/-- Witness for C2: scenario B of the spec, scenario A's payload
resubmitted against a table that already holds its row. -/
theorem register_insert_failure_classified_witness :
    (register sampleBody [sampleRow] Fault.healthy).status = 409 ∧
    (register sampleBody [sampleRow] Fault.healthy).body =
      RespBody.err "This email is already registered." ∧
    (register sampleBody [sampleRow] Fault.healthy).db = [sampleRow] :=
  (register_insert_failure_classified sampleBody [sampleRow] Fault.healthy
    (by decide) (by decide)).2 [] rfl (by decide)

/-- C3: for a request that passes validation with bloodGroup absent or
empty, the value persisted for blood_group is SQL NULL — never an empty
string and never an undefined placeholder (mysql2 escapes a JavaScript
`undefined` to NULL): every row of the resulting table is either an old
row or carries a NULL blood_group. -/
theorem register_bloodGroup_stored_null (b : RequestBody) (rows : List DonorRow) (fault : Fault)
    (_h1 : (falsy b.fullName || falsy b.email || falsy b.phone || falsy b.city) = false)
    (_h2 : (b.isBloodDonor && (falsy b.bloodGroup || b.bloodGroup == some "")) = false)
    (h3 : b.bloodGroup = none ∨ b.bloodGroup = some "") :
    (buildValues b).blood_group = SqlValue.null ∧
    ∀ r ∈ (register b rows fault).db, r ∈ rows ∨ r.blood_group = SqlValue.null := by
  have hbg : (buildValues b).blood_group = SqlValue.null := by
    rcases h3 with h3 | h3 <;> simp [buildValues, finalBloodGroup, jsOfOpt, escapeParam, h3]
  refine ⟨hbg, ?_⟩
  intro r hr
  rcases register_db_cases b rows fault with hdb | hdb
  · rw [hdb] at hr; exact Or.inl hr
  · rw [hdb] at hr
    rcases List.mem_append.mp hr with h | h
    · exact Or.inl h
    · obtain rfl := List.mem_singleton.mp h
      exact Or.inr hbg

/-- Witness for C3: the organ-only payload with an empty bloodGroup. -/
theorem register_bloodGroup_stored_null_witness :
    (organOnlyBody.bloodGroup = none ∨ organOnlyBody.bloodGroup = some "") ∧
    (buildValues organOnlyBody).blood_group = SqlValue.null :=
  ⟨Or.inr rfl,
    (register_bloodGroup_stored_null organOnlyBody [] Fault.healthy
      (by decide) (by decide) (Or.inr rfl)).1⟩

/-- C6: a request that passes both validation rules, carries an organs
array, and meets no duplicate email is answered 201 with the
confirmation message and the positive auto-increment id assigned by the
table, and exactly one row is added. -/
theorem register_success_response (b : RequestBody) (rows : List DonorRow)
    (h1 : (falsy b.fullName || falsy b.email || falsy b.phone || falsy b.city) = false)
    (h2 : (b.isBloodDonor && (falsy b.bloodGroup || b.bloodGroup == some "")) = false)
    (l : List String) (hl : b.organs = some l)
    (hfresh : (rows.any fun r => r.email = (buildValues b).email) = false) :
    (register b rows Fault.healthy).status = 201 ∧
    (register b rows Fault.healthy).body =
      RespBody.success "Registration successful!" (rows.length + 1) ∧
    0 < rows.length + 1 ∧
    (register b rows Fault.healthy).db.length = rows.length + 1 := by
  have hv : (buildValues b).organs_to_donate = SqlValue.str (jsonStringifyStrArr l) := by
    simp [buildValues, organsJson, hl, escapeParam]
  simp [register, h1, h2, dbInsert, hv, hfresh]

/-- Witness for C6: scenario A of the spec against an empty table. -/
theorem register_success_response_witness :
    (register sampleBody [] Fault.healthy).status = 201 ∧
    (register sampleBody [] Fault.healthy).body =
      RespBody.success "Registration successful!" 1 ∧
    0 < 1 ∧
    (register sampleBody [] Fault.healthy).db.length = 1 :=
  register_success_response sampleBody [] (by decide) (by decide) [] rfl (by decide)

/-- C10: a request that passes validation but omits `organs` entirely
serializes to `undefined` (not the encoding of an empty array), which
the driver escapes to SQL NULL; the engine rejects the NULL in the
`organs_to_donate` column, so even against a healthy database the
request lands in the generic 500 path and persists nothing. -/
theorem register_absent_organs_cannot_succeed (b : RequestBody) (rows : List DonorRow)
    (h1 : (falsy b.fullName || falsy b.email || falsy b.phone || falsy b.city) = false)
    (h2 : (b.isBloodDonor && (falsy b.bloodGroup || b.bloodGroup == some "")) = false)
    (ho : b.organs = none) :
    organsJson b.organs = JsParam.undef ∧
    (buildValues b).organs_to_donate = SqlValue.null ∧
    (register b rows Fault.healthy).status = 500 ∧
    (register b rows Fault.healthy).body = RespBody.err genericErrMsg ∧
    (register b rows Fault.healthy).db = rows := by
  have hv : (buildValues b).organs_to_donate = SqlValue.null := by
    simp [buildValues, organsJson, ho, escapeParam]
  refine ⟨by simp [organsJson, ho], hv, ?_⟩
  simp [register, h1, h2, dbInsert, hv]

/-- Witness for C10: a valid payload with no `organs` field. -/
theorem register_absent_organs_cannot_succeed_witness :
    organsJson noOrgansBody.organs = JsParam.undef ∧
    (buildValues noOrgansBody).organs_to_donate = SqlValue.null ∧
    (register noOrgansBody [] Fault.healthy).status = 500 ∧
    (register noOrgansBody [] Fault.healthy).body = RespBody.err genericErrMsg ∧
    (register noOrgansBody [] Fault.healthy).db = [] :=
  register_absent_organs_cannot_succeed noOrgansBody [] (by decide) (by decide) rfl


/-! ## Round-trip of the organs serialization (C7) -/

/-- A hexadecimal digit emitted by `hexDigit` decodes back to its value. -/
theorem hexVal_hexDigit : ∀ m : Fin 16, hexVal (hexDigit m.val) = some m.val := by
  decide

/-- Every character escape is at least one character long. -/
theorem escapeChar_length_pos (c : Char) : 0 < (escapeChar c).length := by
  rw [escapeChar]
  split_ifs <;> simp

/-- Escaping does not shorten a string. -/
theorem encChars_length (cs : List Char) : cs.length ≤ (encChars cs).length := by
  induction cs with
  | nil => simp [encChars]
  | cons c cs ih =>
    have h := escapeChar_length_pos c
    rw [encChars]
    simp only [List.length_append, List.length_cons]
    omega

/-- Parsing one escaped character: if the rest of the literal parses
with fuel `f`, prepending the escape of `c` parses with one more unit of
fuel to `c` prepended. -/
theorem parseStrGo_escapeChar (c : Char) (f : Nat) {tail cs rest : List Char}
    (ih : parseStrGo f tail = some (cs, rest)) :
    parseStrGo (f + 1) (escapeChar c ++ tail) = some (c :: cs, rest) := by
  by_cases h1 : c = '"'
  · subst h1; simp [escapeChar, parseStrGo, decodeEscape, unescapeSimple, ih]
  by_cases h2 : c = '\\'
  · subst h2; simp [escapeChar, parseStrGo, decodeEscape, unescapeSimple, ih]
  by_cases h3 : c = '\x08'
  · subst h3; simp [escapeChar, parseStrGo, decodeEscape, unescapeSimple, ih]
  by_cases h4 : c = '\t'
  · subst h4; simp [escapeChar, parseStrGo, decodeEscape, unescapeSimple, ih]
  by_cases h5 : c = '\n'
  · subst h5; simp [escapeChar, parseStrGo, decodeEscape, unescapeSimple, ih]
  by_cases h6 : c = '\x0c'
  · subst h6; simp [escapeChar, parseStrGo, decodeEscape, unescapeSimple, ih]
  by_cases h7 : c = '\r'
  · subst h7; simp [escapeChar, parseStrGo, decodeEscape, unescapeSimple, ih]
  by_cases h8 : c.toNat < 32
  · have hd1 : hexVal (hexDigit (c.toNat / 16)) = some (c.toNat / 16) :=
      hexVal_hexDigit ⟨c.toNat / 16, by omega⟩
    have hd2 : hexVal (hexDigit (c.toNat % 16)) = some (c.toNat % 16) :=
      hexVal_hexDigit ⟨c.toNat % 16, by omega⟩
    have h0 : hexVal '0' = some 0 := by decide
    have harith : c.toNat / 16 * 16 + c.toNat % 16 = c.toNat := by omega
    simp [escapeChar, h1, h2, h3, h4, h5, h6, h7, h8, parseStrGo, decodeEscape,
      unescapeSimple, h0, hd1, hd2, harith, ih]
  · simp [escapeChar, h1, h2, h3, h4, h5, h6, h7, h8, parseStrGo, ih]

/-- Parsing an escaped string body followed by a closing quote recovers
the original characters and the input after the quote, for any fuel
above the number of characters. -/
theorem parseStrGo_encChars (cs : List Char) (tail : List Char) (fuel : Nat)
    (hf : cs.length < fuel) :
    parseStrGo fuel (encChars cs ++ '"' :: tail) = some (cs, tail) := by
  induction cs generalizing fuel with
  | nil =>
    cases fuel with
    | zero => omega
    | succ f =>
      rw [encChars, List.nil_append, parseStrGo.eq_def]
      simp
  | cons c cs ih =>
    cases fuel with
    | zero => omega
    | succ f =>
      rw [encChars, List.append_assoc]
      refine parseStrGo_escapeChar c f (ih f ?_)
      simp only [List.length_cons] at hf
      omega

/-- `parseStringBody` (whose fuel is the input length) decodes an
escaped string body up to its closing quote. -/
theorem parseStringBody_encChars (cs : List Char) (tail : List Char) :
    parseStringBody (encChars cs ++ '"' :: tail) = some (cs, tail) := by
  have h := encChars_length cs
  show parseStrGo ((encChars cs ++ '"' :: tail).length + 1) (encChars cs ++ '"' :: tail) =
    some (cs, tail)
  refine parseStrGo_encChars cs tail _ ?_
  simp only [List.length_append, List.length_cons]
  omega

/-- Each encoded item contributes at least one character. -/
theorem encItems_length (l : List String) : l.length ≤ (encItems l).length := by
  induction l with
  | nil => simp [encItems]
  | cons s l ih =>
    cases l with
    | nil => simp [encItems, quoteString]
    | cons s2 l2 =>
      rw [encItems]
      simp only [quoteString, List.length_append, List.length_cons]
      simp only [List.length_cons] at ih ⊢
      omega

/-- Parsing the encoded items of a list of strings, given enough fuel,
recovers the list and the input after the closing bracket. -/
theorem parseItems_encItems (l : List String) (fuel : Nat) (tail : List Char)
    (hfuel : l.length < fuel) :
    parseItems fuel (encItems l ++ ']' :: tail) = some (l, tail) := by
  induction l generalizing fuel tail with
  | nil =>
    cases fuel with
    | zero => omega
    | succ f =>
      rw [encItems, List.nil_append, parseItems.eq_def]
      simp
  | cons s l ih =>
    cases fuel with
    | zero => omega
    | succ f =>
      cases l with
      | nil =>
        have hb := parseStringBody_encChars s.data (']' :: tail)
        rw [encItems, quoteString]
        simp only [List.cons_append, List.append_assoc, List.nil_append]
        rw [parseItems.eq_def]
        simp [hb]
      | cons s2 l2 =>
        have hb := parseStringBody_encChars s.data (',' :: (encItems (s2 :: l2) ++ ']' :: tail))
        have ih2 := ih f tail (by simp only [List.length_cons] at hfuel ⊢; omega)
        rw [encItems, quoteString]
        simp only [List.cons_append, List.append_assoc, List.nil_append]
        rw [parseItems.eq_def]
        simp [hb, ih2]

/-- C7: the stored `organs_to_donate` value for a submitted organs
sequence is the JSON-array text `JSON.stringify` produces, and decoding
that text recovers exactly the submitted sequence of strings, in order
— for every sequence, including the empty one. -/
theorem organs_serialization_roundtrip (l : List String) :
    escapeParam (organsJson (some l)) = SqlValue.str (jsonStringifyStrArr l) ∧
    decodeOrgans (jsonStringifyStrArr l) = some l := by
  refine ⟨rfl, ?_⟩
  have h := parseItems_encItems l ((encItems l).length + 1 + 1) []
    (by have := encItems_length l; omega)
  simp only [decodeOrgans, jsonStringifyStrArr]
  simp [h]
